import Mathlib

/- Shallow embedding of the realtime messaging layer of a mobile chat client.
   The definitions below are translated from src/services/socketService.js
   (the SocketService singleton: connection lifecycle, listener fan-out,
   request correlation) and from the ChatScreen component (sendMessage,
   handleNewMessage, handleMessageConfirmed, loadChatHistory). Message text
   is modelled as List Char, JavaScript numbers as Int, and JavaScript
   exceptions as explicit error results. -/

/-- A chat message object as it appears in the message list of ChatScreen and
in socket payloads. The sending flag marks a provisional (optimistic) entry. -/
structure Msg where
  id : Int := 0
  from_user_id : Int := 0
  from_username : String := ""
  to_user_id : Int := 0
  to_username : String := ""
  message : List Char := []
  timestamp : String := ""
  sending : Bool := false
deriving DecidableEq

/-- A user record as held by ChatScreen (currentUser and otherUser). -/
structure ChatUser where
  id : Int := 0
  username : String := ""
deriving DecidableEq

/-- The WhiteSpace and LineTerminator code points removed by the JavaScript
method String.prototype.trim. -/
def isJsWhitespace (c : Char) : Bool :=
  c.toNat = 0x09 || c.toNat = 0x0A || c.toNat = 0x0B || c.toNat = 0x0C ||
  c.toNat = 0x0D || c.toNat = 0x20 || c.toNat = 0xA0 || c.toNat = 0x1680 ||
  (0x2000 ≤ c.toNat && c.toNat ≤ 0x200A) || c.toNat = 0x2028 ||
  c.toNat = 0x2029 || c.toNat = 0x202F || c.toNat = 0x205F ||
  c.toNat = 0x3000 || c.toNat = 0xFEFF

/-- The JavaScript method String.prototype.trim on a string modelled as a
char list: whitespace is removed from both ends. -/
def jsTrim (s : List Char) : List Char :=
  ((s.dropWhile isJsWhitespace).reverse.dropWhile isJsWhitespace).reverse

/-- ChatScreen.handleNewMessage: the inbound message is appended to the list
only when its from_user_id or its to_user_id equals the id of the user the
open conversation is with; otherwise the list is left unchanged. -/
def handleNewMessage (otherUserId : Int) (m : Msg) (prev : List Msg) : List Msg :=
  if m.from_user_id = otherUserId ∨ m.to_user_id = otherUserId then prev ++ [m] else prev

/-- The match test inside ChatScreen.handleMessageConfirmed: an entry is
replaced when it is still marked sending and its text, sender and recipient
agree with the confirmed message. -/
def confirmMatches (confirmed msg : Msg) : Bool :=
  msg.sending && msg.message == confirmed.message &&
  msg.from_user_id == confirmed.from_user_id && msg.to_user_id == confirmed.to_user_id

/-- ChatScreen.handleMessageConfirmed: maps over the previous list and
replaces every matching provisional entry by the confirmed message with the
sending flag cleared. -/
def handleMessageConfirmed (confirmed : Msg) (prev : List Msg) : List Msg :=
  prev.map fun msg =>
    if confirmMatches confirmed msg then { confirmed with sending := false } else msg

/-- A settlement of the promise returned by SocketService.getChatHistory:
either resolve with a message list or reject with an error message. -/
inductive RSettle where
  | resolved (messages : List Msg)
  | rejected (error : String)
deriving DecidableEq

/-- The bookkeeping state of one getChatHistory call: its correlation key,
the two handler registrations, the timeout timer, and every resolve or
reject call performed so far, in order. -/
structure HistoryRequest where
  otherUserId : Int
  historyHandlerOn : Bool
  errorHandlerOn : Bool
  timerOn : Bool
  settlements : List RSettle
deriving DecidableEq

/-- The state directly after SocketService.getChatHistory registers its two
handlers, starts its timer and emits the get_chat_history request. -/
def initRequest (otherUserId : Int) : HistoryRequest :=
  { otherUserId := otherUserId, historyHandlerOn := true, errorHandlerOn := true,
    timerOn := true, settlements := [] }

/-- Events that can reach a pending getChatHistory request: a chat_history
event (carrying the other_user_id field of its payload and its optional
messages field), an error event (with its optional message field), or expiry
of the ten second timer. -/
inductive ReqEvent where
  | chatHistory (other_user_id : Int) (messages : Option (List Msg))
  | errorEvent (message : Option String)
  | timerFire
deriving DecidableEq

/-- One event applied to a pending request, following the handler bodies in
SocketService.getChatHistory: the timer removes both handlers and rejects; a
chat_history event settles only when its other_user_id equals the
correlation key, clearing the timer, removing both handlers and resolving
with the messages field or the empty list; an error event clears the timer,
removes both handlers and rejects with the server message or a default text.
A removed handler does not run, and a cleared timer does not fire. -/
def requestStep (req : HistoryRequest) (ev : ReqEvent) : HistoryRequest :=
  match ev with
  | .timerFire =>
      if req.timerOn then
        { req with timerOn := false, historyHandlerOn := false, errorHandlerOn := false,
                   settlements := req.settlements ++ [.rejected "Chat history request timeout"] }
      else req
  | .chatHistory uid msgs =>
      if req.historyHandlerOn then
        if uid = req.otherUserId then
          { req with timerOn := false, historyHandlerOn := false, errorHandlerOn := false,
                     settlements := req.settlements ++ [.resolved (msgs.getD [])] }
        else req
      else req
  | .errorEvent emsg =>
      if req.errorHandlerOn then
        { req with timerOn := false, historyHandlerOn := false, errorHandlerOn := false,
                   settlements := req.settlements ++ [.rejected (emsg.getD "Failed to get chat history")] }
      else req

/-- Events that neither settle nor unregister a pending request with the
given correlation key: chat_history events for a different key. -/
def nonSettling (otherUserId : Int) : ReqEvent → Bool
  | .chatHistory uid _ => uid != otherUserId
  | _ => false

/-- The state of a request whose timer fired before any settling event. -/
def timedOutRequest (otherUserId : Int) : HistoryRequest :=
  { otherUserId := otherUserId, historyHandlerOn := false, errorHandlerOn := false,
    timerOn := false, settlements := [.rejected "Chat history request timeout"] }

/-- The mutable fields of the SocketService singleton, plus an
instrumentation counter for the number of transport objects constructed. -/
structure SockSt where
  socketPresent : Bool := false
  isConnected : Bool := false
  isConnecting : Bool := false
  socketsCreated : Nat := 0
deriving DecidableEq

/-- SocketService.disconnect: when a socket exists it is torn down; if that
socket was connected, the transport synchronously emits its local disconnect
event, whose registered handler clears isConnected and notifies connection
listeners with false, before the method body clears the handle and the flags
and notifies with false again; a socket that was not connected emits no such
event, so only the method body notifies; with no socket nothing happens. The
returned list holds the boolean notifications emitted by the call, in
order. -/
def disconnectService (st : SockSt) : SockSt × List Bool :=
  if st.socketPresent then
    let handlerNotes : List Bool := if st.isConnected then [false] else []
    ({ st with socketPresent := false, isConnected := false, isConnecting := false },
     handlerNotes ++ [false])
  else (st, [])

/-- How a connect() call starts, following the dispatch at the top of
SocketService.connect. -/
inductive ConnectStart where
  | waiter
  | alreadyConnected
  | noToken
  | attemptStarted
deriving DecidableEq

/-- The synchronous part of SocketService.connect: a call while isConnecting
is set returns a polling waiter and changes nothing; a call while connected
with a socket present resolves immediately; otherwise the in-flight flag is
set, a missing token aborts the call, a stale socket is torn down through
disconnect (which also clears the in-flight flag and notifies), and a new
transport is constructed with its handlers attached. The returned list holds
the connection notifications emitted synchronously by the call. -/
def connectCall (st : SockSt) (tokenPresent : Bool) : SockSt × ConnectStart × List Bool :=
  if st.isConnecting then (st, .waiter, [])
  else if st.isConnected && st.socketPresent then (st, .alreadyConnected, [])
  else
    let st1 := { st with isConnecting := true }
    if !tokenPresent then ({ st1 with isConnecting := false }, .noToken, [])
    else
      let staleCleanup :=
        if st1.socketPresent && !st1.isConnected then disconnectService st1
        else (st1, [])
      let st2 := staleCleanup.1
      ({ st2 with socketPresent := true, socketsCreated := st2.socketsCreated + 1 },
       .attemptStarted, staleCleanup.2)

/-- Outcome of one caller promise. -/
inductive Settlement where
  | resolved
  | rejected (error : String)
deriving DecidableEq

/-- The transport event that ends the pending attempt of the initiating
connect() call. -/
inductive AttemptEvent where
  | connectEv
  | connectErrorEv
  | timeoutFire
deriving DecidableEq

/-- The handlers registered by the initiating connect() call and its timeout
timer: the connect event marks the service connected, clears the in-flight
flag, notifies listeners with true and resolves; connect_error clears the
in-flight flag and rejects; the ten second timer clears the in-flight flag
and rejects with a timeout error. -/
def attemptSettle (st : SockSt) : AttemptEvent → SockSt × Settlement × List Bool
  | .connectEv =>
      ({ st with isConnected := true, isConnecting := false }, .resolved, [true])
  | .connectErrorEv => ({ st with isConnecting := false }, .rejected "connect_error", [])
  | .timeoutFire => ({ st with isConnecting := false }, .rejected "Connection timeout", [])

/-- One poll of the waiter promise returned to an overlapping connect()
caller: it resolves, drawing no distinction between success and failure of
the attempt, as soon as the in-flight flag is clear, and keeps waiting
otherwise. -/
def waiterPoll (st : SockSt) : Option Settlement :=
  if st.isConnecting then none else some .resolved

/-- Observations of the overlapped connect scenario: how each call started,
what the waiter saw before the attempt settled, and both final outcomes. -/
structure OverlapRun where
  finalState : SockSt
  call1Kind : ConnectStart
  call2Kind : ConnectStart
  call2BeforeSettle : Option Settlement
  call1Outcome : Settlement
  call2Outcome : Option Settlement
deriving DecidableEq

/-- The overlapped scenario: a first connect() call from the initial state
with a token present, a second connect() call issued while the first attempt
is in flight, one waiter poll before the attempt settles, the settlement of
the attempt, and the next waiter poll. -/
def overlappedConnect (ev : AttemptEvent) : OverlapRun :=
  let r1 := connectCall {} true
  let r2 := connectCall r1.1 true
  let pollBefore := waiterPoll r2.1
  let r3 := attemptSettle r2.1 ev
  { finalState := r3.1, call1Kind := r1.2.1, call2Kind := r2.2.1,
    call2BeforeSettle := pollBefore, call1Outcome := r3.2.1,
    call2Outcome := waiterPoll r3.1 }

/-- The outbound send_message payload. -/
structure SendPayload where
  to_user_id : Int
  message : List Char
deriving DecidableEq

/-- SocketService.sendMessage: raises when no socket is present or the
service is not connected, otherwise emits a send_message payload whose text
is the trimmed message argument. -/
def sendMessageService (st : SockSt) (toUserId : Int) (message : List Char) :
    Except String SendPayload :=
  if !st.socketPresent || !st.isConnected then .error "Socket not connected"
  else .ok { to_user_id := toUserId, message := jsTrim message }

/-- Result of evaluating the updater passed to setMessages in the catch
block of ChatScreen.sendMessage: either a ReferenceError raised by an
unbound name, or the filtered list. -/
inductive CatchOutcome where
  | refError (error : String)
  | removed (messages : List Msg)
deriving DecidableEq

/-- Lookup of a name in a lexical scope holding message-valued bindings. -/
def lookupVar (scope : List (String × Msg)) (x : String) : Option Msg :=
  match scope with
  | [] => none
  | (y, v) :: rest => if y = x then some v else lookupVar rest x

/-- The message-valued bindings visible inside the catch block of
ChatScreen.sendMessage. The tempMessage constant is declared inside the try
block and its scope ends with that block, so the catch block sees no binding
for it. -/
def sendMessageCatchScope : List (String × Msg) := []

/-- The setMessages updater of the catch block of ChatScreen.sendMessage: it
filters prevMessages on the test that the entry id differs from the id of
tempMessage, resolving the name tempMessage in the given lexical scope; an
unresolvable name raises a ReferenceError. -/
def catchRemoveTemp (scope : List (String × Msg)) (prev : List Msg) : CatchOutcome :=
  match lookupVar scope "tempMessage" with
  | none => .refError "tempMessage is not defined"
  | some temp => .removed (prev.filter fun m => m.id != temp.id)

/-- Result of one ChatScreen.sendMessage call. -/
inductive ChatSendResult where
  | noop
  | sent (messages : List Msg) (payload : SendPayload)
  | failed (messagesAtCatch : List Msg) (catchResult : CatchOutcome)
deriving DecidableEq

/-- ChatScreen.sendMessage: returns noop when the trimmed text is empty, a
send is in progress, or the screen is not marked connected. Otherwise the
trimmed text is captured, a provisional entry with a timestamp id is
appended, and the service send is attempted; on success the payload goes
out, and on a synchronous send failure the catch block evaluates its
setMessages updater on the list holding the appended provisional entry. -/
def chatSendMessage (now : Int) (ts : String) (currentUser otherUser : ChatUser)
    (sending connected : Bool) (st : SockSt) (messageText : List Char)
    (prev : List Msg) : ChatSendResult :=
  if (jsTrim messageText).isEmpty || sending || !connected then .noop
  else
    let text := jsTrim messageText
    let tempMessage : Msg :=
      { id := now, from_user_id := currentUser.id, from_username := currentUser.username,
        to_user_id := otherUser.id, to_username := otherUser.username,
        message := text, timestamp := ts, sending := true }
    let afterAppend := prev ++ [tempMessage]
    match sendMessageService st otherUser.id text with
    | .ok payload => .sent afterAppend payload
    | .error _ => .failed afterAppend (catchRemoveTemp sendMessageCatchScope afterAppend)

/-- What ChatScreen.loadChatHistory leaves behind: the new message list and
the alert dialogs shown to the user. -/
structure LoadHistoryOutcome where
  messages : List Msg
  alerts : List String
deriving DecidableEq

/-- ChatScreen.loadChatHistory applied to the settlement of the underlying
getChatHistory promise: success replaces the list with the returned history;
failure logs to the console only, shows no alert, and replaces the list with
the empty list. -/
def loadChatHistoryApply (result : RSettle) (prevMessages : List Msg) : LoadHistoryOutcome :=
  match result with
  | .resolved history => { messages := history, alerts := [] }
  | .rejected _ => { messages := [], alerts := [] }

/-- A registered message listener: SocketService accepts both plain callback
functions and objects exposing optional onMessage and onMessageConfirmed
methods. A handler returning false models a handler that throws. -/
inductive MsgListener where
  | fn (handler : Msg → Bool)
  | obj (onMessage : Option (Msg → Bool)) (onMessageConfirmed : Option (Msg → Bool))

/-- SocketService.notifyMessageListeners, the receive_message fan-out: every
listener that is a function or exposes onMessage is invoked inside a try
catch, so the sweep continues regardless of the handler outcome. Returns the
indices of the invoked listeners in order, counting from i. -/
def notifyMessageAux (m : Msg) : List MsgListener → Nat → List Nat
  | [], _ => []
  | .fn handler :: rest, i =>
      let _result := handler m
      i :: notifyMessageAux m rest (i + 1)
  | .obj (some handler) _ :: rest, i =>
      let _result := handler m
      i :: notifyMessageAux m rest (i + 1)
  | .obj none _ :: rest, i => notifyMessageAux m rest (i + 1)

/-- The message_sent fan-out in SocketService.setupEventListeners: listeners
exposing onMessageConfirmed are invoked in order, but the loop body has no
try catch, so a handler that throws ends the forEach sweep and the exception
escapes. Returns the invoked indices and whether an exception escaped. -/
def messageSentFanout (m : Msg) : List MsgListener → Nat → List Nat × Bool
  | [], _ => ([], false)
  | .obj _ (some handler) :: rest, i =>
      if handler m then
        let next := messageSentFanout m rest (i + 1)
        (i :: next.1, next.2)
      else ([i], true)
  | .fn _ :: rest, i => messageSentFanout m rest (i + 1)
  | .obj _ none :: rest, i => messageSentFanout m rest (i + 1)

/-- SocketService.notifyConnectionListeners: every connection listener is
invoked inside a try catch with the boolean status, so the sweep continues
regardless of the handler outcome. -/
def notifyConnectionAux (b : Bool) : List (Bool → Bool) → Nat → List Nat
  | [], _ => []
  | handler :: rest, i =>
      let _result := handler b
      i :: notifyConnectionAux b rest (i + 1)

/-- Indices of the list members satisfying p, counting from i. -/
def idxFilter {α : Type} (p : α → Bool) : List α → Nat → List Nat
  | [], _ => []
  | a :: rest, i => if p a then i :: idxFilter p rest (i + 1) else idxFilter p rest (i + 1)

/-- A message listener is applicable to a receive_message delivery when it
is a function or exposes onMessage. -/
def hasMessageCapability : MsgListener → Bool
  | .fn _ => true
  | .obj (some _) _ => true
  | .obj none _ => false

/-- A message listener is applicable to a message_sent delivery when it
exposes onMessageConfirmed. -/
def hasConfirmedCapability : MsgListener → Bool
  | .obj _ (some _) => true
  | _ => false

/-- Whether the onMessageConfirmed handler of the listener throws on m. -/
def confirmedThrows (m : Msg) : MsgListener → Bool
  | .obj _ (some handler) => !handler m
  | _ => false

/-- A concrete confirmed message between users 1 and 2. -/
def msgHi : Msg :=
  { id := 77, from_user_id := 1, to_user_id := 2, message := ['h', 'i'], timestamp := "t2" }

/-- A concrete provisional entry with the same triple as msgHi. -/
def dupProvisionalA : Msg :=
  { id := 100, from_user_id := 1, to_user_id := 2, message := ['h', 'i'],
    timestamp := "t0", sending := true }

/-- A second, later concrete provisional entry with the identical triple. -/
def dupProvisionalB : Msg :=
  { id := 101, from_user_id := 1, to_user_id := 2, message := ['h', 'i'],
    timestamp := "t1", sending := true }

/-- An inbound message whose sender is not user 2 but whose recipient is. -/
def echoMsg : Msg :=
  { id := 501, from_user_id := 1, to_user_id := 2, message := ['y', 'o'], timestamp := "t4" }

/-- A listener whose onMessageConfirmed handler always throws. -/
def listenerThrower : MsgListener := .obj none (some (fun _ => false))

/-- A listener whose onMessageConfirmed handler records and returns. -/
def listenerRecorder : MsgListener := .obj none (some (fun _ => true))

/-- A mixed listener set: a plain function that throws, an object with only
an inbound handler, and an object with only a confirmation handler. -/
def mixedListeners : List MsgListener :=
  [.fn (fun _ => false), .obj (some (fun _ => true)) none, .obj none (some (fun _ => true))]

/-- One connection listener that throws. -/
def oneConnListener : List (Bool → Bool) := [fun _ => false]

/- Helper lemmas about dropWhile and jsTrim. -/

theorem dropWhile_self (p : Char → Bool) (l : List Char) :
    (l.dropWhile p).dropWhile p = l.dropWhile p := by
  induction l with
  | nil => rfl
  | cons a t ih =>
    cases hpa : p a with
    | true => simp [List.dropWhile_cons, hpa, ih]
    | false => simp [List.dropWhile_cons, hpa]

theorem dropWhile_head_false (p : Char → Bool) (l : List Char) :
    ∀ a t, l.dropWhile p = a :: t → p a = false := by
  induction l with
  | nil => intro a t h; simp [List.dropWhile] at h
  | cons b l' ih =>
    intro a t h
    cases hpb : p b with
    | true =>
      rw [List.dropWhile_cons, hpb] at h
      simp at h
      exact ih a t h
    | false =>
      rw [List.dropWhile_cons, hpb] at h
      simp at h
      obtain ⟨hab, _⟩ := h
      rw [hab] at hpb
      exact hpb

theorem jsTrim_idem (s : List Char) : jsTrim (jsTrim s) = jsTrim s := by
  unfold jsTrim
  have hrev : ((((s.dropWhile isJsWhitespace).reverse.dropWhile isJsWhitespace).reverse).reverse) =
      (s.dropWhile isJsWhitespace).reverse.dropWhile isJsWhitespace :=
    List.reverse_reverse _
  have hstep1 : (((s.dropWhile isJsWhitespace).reverse.dropWhile isJsWhitespace).reverse).dropWhile isJsWhitespace =
      ((s.dropWhile isJsWhitespace).reverse.dropWhile isJsWhitespace).reverse := by
    cases hv : ((s.dropWhile isJsWhitespace).reverse.dropWhile isJsWhitespace).reverse with
    | nil => simp
    | cons a t =>
      have hdecomp : s.dropWhile isJsWhitespace =
          (a :: t) ++ ((s.dropWhile isJsWhitespace).reverse.takeWhile isJsWhitespace).reverse := by
        have h1 : (s.dropWhile isJsWhitespace).reverse.takeWhile isJsWhitespace ++
            (s.dropWhile isJsWhitespace).reverse.dropWhile isJsWhitespace =
            (s.dropWhile isJsWhitespace).reverse :=
          List.takeWhile_append_dropWhile _ _
        calc s.dropWhile isJsWhitespace
            = ((s.dropWhile isJsWhitespace).reverse).reverse := (List.reverse_reverse _).symm
          _ = ((s.dropWhile isJsWhitespace).reverse.takeWhile isJsWhitespace ++
                (s.dropWhile isJsWhitespace).reverse.dropWhile isJsWhitespace).reverse := by
              rw [h1]
          _ = ((s.dropWhile isJsWhitespace).reverse.dropWhile isJsWhitespace).reverse ++
                ((s.dropWhile isJsWhitespace).reverse.takeWhile isJsWhitespace).reverse := by
              rw [List.reverse_append]
          _ = (a :: t) ++ ((s.dropWhile isJsWhitespace).reverse.takeWhile isJsWhitespace).reverse := by
              rw [hv]
      have hpa : isJsWhitespace a = false := by
        apply dropWhile_head_false isJsWhitespace s a
          (t ++ ((s.dropWhile isJsWhitespace).reverse.takeWhile isJsWhitespace).reverse)
        conv_lhs => rw [hdecomp]
        simp
      rw [List.dropWhile_cons, hpa]
      simp
  rw [hstep1, hrev, dropWhile_self]

/- Claim theorems. -/

/-- C2 counterexample: with two provisional entries carrying the identical
(text, from, to) triple, applying the confirmation rewrites BOTH entries,
not only the earliest one; in particular the later provisional entry does
not stay unchanged, contradicting the claim. -/
theorem confirm_rewrites_both_duplicates :
    handleMessageConfirmed msgHi [dupProvisionalA, dupProvisionalB] =
      [{ msgHi with sending := false }, { msgHi with sending := false }] ∧
    (handleMessageConfirmed msgHi [dupProvisionalA, dupProvisionalB])[1]? ≠
      some dupProvisionalB := by
  constructor
  · rfl
  · decide

/-- C2 amended: applying a confirmation rewrites EVERY still-provisional
entry whose (text, fromUserId, toUserId) triple matches, replacing each by
the confirmed message with the provisional flag cleared; entries that do not
match are unchanged, and the list length is unchanged. -/
theorem handleMessageConfirmed_rewrites_all_matches (c : Msg) (prev : List Msg) :
    (handleMessageConfirmed c prev).length = prev.length ∧
    ∀ i : Nat, (handleMessageConfirmed c prev)[i]? =
      (prev[i]?).map fun msg =>
        if confirmMatches c msg then { c with sending := false } else msg := by
  constructor
  · exact List.length_map _ _
  · intro i
    simp [handleMessageConfirmed]

/-- C4 counterexample: an inbound message whose from_user_id differs from
the id of the open conversation counterpart (user 2) is still appended,
because its to_user_id equals that id. -/
theorem inbound_appended_despite_from_mismatch :
    handleNewMessage 2 echoMsg [] = [echoMsg] ∧ echoMsg.from_user_id ≠ 2 := by
  constructor
  · rfl
  · decide

/-- C4 amended: an inbound message is appended exactly when its from_user_id
or its to_user_id equals the id of the open conversation counterpart; it is
dropped, leaving the list unchanged, only when both differ. -/
theorem handleNewMessage_append_iff (otherUserId : Int) (m : Msg) (prev : List Msg) :
    (m.from_user_id = otherUserId ∨ m.to_user_id = otherUserId →
      handleNewMessage otherUserId m prev = prev ++ [m]) ∧
    (m.from_user_id ≠ otherUserId → m.to_user_id ≠ otherUserId →
      handleNewMessage otherUserId m prev = prev) := by
  constructor
  · intro h
    simp [handleNewMessage, h]
  · intro h1 h2
    simp [handleNewMessage, h1, h2]

/-- C4 witness: the amended claim evaluated on concrete inputs, a dropped
stranger message and an appended message addressed to the counterpart. -/
theorem handleNewMessage_append_iff_witness :
    handleNewMessage 2 { id := 500, from_user_id := 5, to_user_id := 7 } [] = [] ∧
    handleNewMessage 2 echoMsg [] = [echoMsg] := by
  constructor
  · exact (handleNewMessage_append_iff 2 { id := 500, from_user_id := 5, to_user_id := 7 } []).2
      (by decide) (by decide)
  · exact (handleNewMessage_append_iff 2 echoMsg []).1 (Or.inr (by decide))

/-- C8: the catch block of ChatScreen.sendMessage cannot delete the
provisional entry: the name tempMessage is declared inside the try block, is
unbound in the catch scope, and evaluating the updater raises a
ReferenceError for every list; had the binding been visible, the filter
would have removed exactly the entries with the temporary id; the concrete
run with a half-open socket (screen marked connected, service not) reaches
the catch and produces the ReferenceError instead of a removal. -/
theorem sendMessage_catch_reference_error :
    (∀ prev : List Msg,
      catchRemoveTemp sendMessageCatchScope prev = .refError "tempMessage is not defined") ∧
    (∀ (prev : List Msg) (temp : Msg),
      catchRemoveTemp [("tempMessage", temp)] prev =
        .removed (prev.filter fun m => m.id != temp.id)) ∧
    chatSendMessage 5 "t" { id := 1, username := "a" } { id := 2, username := "b" }
        false true { socketPresent := true, isConnected := false } ['h', 'i'] [] =
      .failed [{ id := 5, from_user_id := 1, from_username := "a", to_user_id := 2,
                 to_username := "b", message := ['h', 'i'], timestamp := "t", sending := true }]
        (.refError "tempMessage is not defined") := by
  refine ⟨fun prev => rfl, fun prev temp => rfl, ?_⟩
  decide

/-- C9: when the history fetch rejects, ChatScreen.loadChatHistory replaces
the message list wholesale with the empty list whatever it held before, and
surfaces no alert to the user. -/
theorem loadChatHistory_failure_clears_and_swallows (err : String) (prev : List Msg) :
    loadChatHistoryApply (.rejected err) prev = { messages := [], alerts := [] } := rfl

/-- C10: whenever ChatScreen.sendMessage proceeds past its guard and the
service is connected, the appended provisional entry stores the trimmed
text and the outbound send_message payload carries the same trimmed text,
so the reconciliation triple is computed over the trimmed text on both
sides. -/
theorem send_payload_trimmed_matches_optimistic (now : Int) (ts : String)
    (currentUser otherUser : ChatUser) (st : SockSt) (messageText : List Char)
    (prev : List Msg) (hne : (jsTrim messageText).isEmpty = false)
    (hsock : st.socketPresent = true) (hconn : st.isConnected = true) :
    chatSendMessage now ts currentUser otherUser false true st messageText prev =
      .sent
        (prev ++ [{ id := now, from_user_id := currentUser.id,
                    from_username := currentUser.username, to_user_id := otherUser.id,
                    to_username := otherUser.username, message := jsTrim messageText,
                    timestamp := ts, sending := true }])
        { to_user_id := otherUser.id, message := jsTrim messageText } := by
  simp [chatSendMessage, sendMessageService, hne, hsock, hconn, jsTrim_idem]

/-- C10 witness: the theorem applied to a concrete padded input text. -/
theorem send_payload_trimmed_witness :
    chatSendMessage 5 "t" { id := 1, username := "a" } { id := 2, username := "b" }
        false true { socketPresent := true, isConnected := true, isConnecting := false }
        [' ', 'h', 'i', ' '] [] =
      .sent [{ id := 5, from_user_id := 1, from_username := "a", to_user_id := 2,
               to_username := "b", message := ['h', 'i'], timestamp := "t", sending := true }]
        { to_user_id := 2, message := ['h', 'i'] } := by
  have h := send_payload_trimmed_matches_optimistic 5 "t"
    { id := 1, username := "a" } { id := 2, username := "b" }
    { socketPresent := true, isConnected := true, isConnecting := false }
    [' ', 'h', 'i', ' '] [] (by decide) rfl rfl
  exact h

/-- C5 counterexample: disconnecting while the transport is connected
notifies connection listeners with false twice, not exactly once: the
transport synchronously emits its local disconnect event, whose handler
notifies first, and the method body then notifies again. -/
theorem disconnect_connected_notifies_twice :
    (disconnectService
      { socketPresent := true, isConnected := true, isConnecting := false,
        socketsCreated := 1 }).2 = [false, false] ∧
    (disconnectService
      { socketPresent := true, isConnected := true, isConnecting := false,
        socketsCreated := 1 }).2 ≠ [false] := by
  refine ⟨rfl, ?_⟩
  decide

/-- C5 amended: disconnect with a socket present tears it down and clears
the flags; it notifies false exactly once when that socket was not
connected, and twice when it was connected, the extra notification coming
from the handler of the local disconnect event the transport emits
synchronously; disconnect with no socket notifies nobody; and a second
disconnect call adds no notification, so the two-call total equals the
output of the first call alone. -/
theorem disconnect_notification_profile (st : SockSt) :
    (st.socketPresent = true → st.isConnected = false →
      disconnectService st =
        ({ st with socketPresent := false, isConnected := false, isConnecting := false },
         [false])) ∧
    (st.socketPresent = true → st.isConnected = true →
      disconnectService st =
        ({ st with socketPresent := false, isConnected := false, isConnecting := false },
         [false, false])) ∧
    (st.socketPresent = false → disconnectService st = (st, [])) ∧
    (disconnectService st).2 ++ (disconnectService (disconnectService st).1).2 =
      (disconnectService st).2 := by
  cases hp : st.socketPresent <;> cases hc : st.isConnected <;>
    simp [disconnectService, hp, hc]

/-- C5 witness: the amended claim evaluated on concrete states, one holding
a stale socket, one holding a connected socket, and one holding none. -/
theorem disconnect_notification_profile_witness :
    disconnectService
        { socketPresent := true, isConnected := false, isConnecting := true,
          socketsCreated := 1 } =
      ({ socketPresent := false, isConnected := false, isConnecting := false,
         socketsCreated := 1 }, [false]) ∧
    disconnectService
        { socketPresent := true, isConnected := true, isConnecting := false,
          socketsCreated := 1 } =
      ({ socketPresent := false, isConnected := false, isConnecting := false,
         socketsCreated := 1 }, [false, false]) ∧
    disconnectService
        { socketPresent := false, isConnected := false, isConnecting := false,
          socketsCreated := 1 } =
      ({ socketPresent := false, isConnected := false, isConnecting := false,
         socketsCreated := 1 }, []) := by
  refine ⟨?_, ?_, ?_⟩
  · exact (disconnect_notification_profile
      { socketPresent := true, isConnected := false, isConnecting := true,
        socketsCreated := 1 }).1 rfl rfl
  · exact (disconnect_notification_profile
      { socketPresent := true, isConnected := true, isConnecting := false,
        socketsCreated := 1 }).2.1 rfl rfl
  · exact (disconnect_notification_profile
      { socketPresent := false, isConnected := false, isConnecting := false,
        socketsCreated := 1 }).2.2.1 rfl

/-- C1 counterexample: in the overlapped connect scenario where the single
attempt fails with connect_error, the first caller is rejected while the
second caller (the polling waiter) still resolves, so the two callers do not
observe the same outcome. -/
theorem connect_overlap_failure_outcomes_differ :
    (overlappedConnect .connectErrorEv).call1Outcome = .rejected "connect_error" ∧
    (overlappedConnect .connectErrorEv).call2Outcome = some .resolved ∧
    (overlappedConnect .connectErrorEv).call1Outcome ≠ .resolved := by
  refine ⟨rfl, rfl, ?_⟩
  decide

/-- C1 amended: for a second connect() call issued while the first attempt
is in flight, no second attempt starts and exactly one transport is created,
and the second caller settles only after the first attempt settles; but the
second caller always resolves, whatever ends the attempt, while the first
caller resolves exactly when the transport reports connect. -/
theorem connect_overlap_one_transport (ev : AttemptEvent) :
    (overlappedConnect ev).call1Kind = .attemptStarted ∧
    (overlappedConnect ev).call2Kind = .waiter ∧
    (overlappedConnect ev).finalState.socketsCreated = 1 ∧
    (overlappedConnect ev).call2BeforeSettle = none ∧
    (overlappedConnect ev).call2Outcome = some .resolved ∧
    ((overlappedConnect ev).call1Outcome = .resolved ↔ ev = .connectEv) := by
  cases ev <;> decide

/-- Fan-out lemma: the receive_message sweep invokes exactly the applicable
listeners, in order, whatever any handler does. -/
theorem notifyMessageAux_eq (m : Msg) (ls : List MsgListener) (i : Nat) :
    notifyMessageAux m ls i = idxFilter hasMessageCapability ls i := by
  induction ls generalizing i with
  | nil => rfl
  | cons l rest ih =>
    cases l with
    | fn handler => simp [notifyMessageAux, idxFilter, hasMessageCapability, ih]
    | obj om oc =>
      cases om with
      | some handler => simp [notifyMessageAux, idxFilter, hasMessageCapability, ih]
      | none => simp [notifyMessageAux, idxFilter, hasMessageCapability, ih]

/-- Fan-out lemma: the connection sweep invokes every listener, in order,
whatever any handler does. -/
theorem notifyConnectionAux_eq (b : Bool) (cs : List (Bool → Bool)) (i : Nat) :
    notifyConnectionAux b cs i = idxFilter (fun _ => true) cs i := by
  induction cs generalizing i with
  | nil => rfl
  | cons handler rest ih => simp [notifyConnectionAux, idxFilter, ih]

/-- Fan-out lemma: when no applicable handler throws, the message_sent sweep
invokes exactly the applicable listeners and no exception escapes. -/
theorem messageSentFanout_no_throw (m : Msg) (ls : List MsgListener) (i : Nat)
    (h : ∀ l ∈ ls, confirmedThrows m l = false) :
    messageSentFanout m ls i = (idxFilter hasConfirmedCapability ls i, false) := by
  induction ls generalizing i with
  | nil => rfl
  | cons l rest ih =>
    have hl := h l (List.mem_cons_self l rest)
    have hrest : ∀ x ∈ rest, confirmedThrows m x = false :=
      fun x hx => h x (List.mem_cons_of_mem l hx)
    cases l with
    | fn handler => simp [messageSentFanout, idxFilter, hasConfirmedCapability, ih _ hrest]
    | obj om oc =>
      cases oc with
      | none => simp [messageSentFanout, idxFilter, hasConfirmedCapability, ih _ hrest]
      | some handler =>
        have hh : handler m = true := by
          simp [confirmedThrows] at hl
          exact hl
        simp [messageSentFanout, idxFilter, hasConfirmedCapability, hh, ih _ hrest]

/-- C3 counterexample: in the message_sent fan-out a listener whose
onMessageConfirmed handler throws ends the sweep: with a thrower registered
before a recorder, only index 0 is invoked, the recorder at index 1 is never
invoked, and the exception escapes. -/
theorem message_sent_fanout_throw_halts :
    messageSentFanout msgHi [listenerThrower, listenerRecorder] 0 = ([0], true) ∧
    1 ∉ (messageSentFanout msgHi [listenerThrower, listenerRecorder] 0).1 := by
  refine ⟨rfl, ?_⟩
  decide

/-- C3 amended: for receive_message and connection-state deliveries every
currently registered listener with the applicable capability is invoked
exactly once, in order, and a throwing listener never prevents the remaining
invocations; for message_sent deliveries this holds only when no applicable
handler throws, a throwing handler ending the sweep. -/
theorem fanout_isolation (m : Msg) (ls : List MsgListener) (cs : List (Bool → Bool))
    (b : Bool) :
    notifyMessageAux m ls 0 = idxFilter hasMessageCapability ls 0 ∧
    notifyConnectionAux b cs 0 = idxFilter (fun _ => true) cs 0 ∧
    ((∀ l ∈ ls, confirmedThrows m l = false) →
      messageSentFanout m ls 0 = (idxFilter hasConfirmedCapability ls 0, false)) :=
  ⟨notifyMessageAux_eq m ls 0, notifyConnectionAux_eq b cs 0,
   fun h => messageSentFanout_no_throw m ls 0 h⟩

/-- C3 witness: the amended claim evaluated on a concrete mixed listener set
containing a throwing plain function listener. -/
theorem fanout_isolation_witness :
    notifyMessageAux msgHi mixedListeners 0 = [0, 1] ∧
    notifyConnectionAux true oneConnListener 0 = [0] ∧
    messageSentFanout msgHi mixedListeners 0 = ([2], false) := by
  obtain ⟨h1, h2, h3⟩ := fanout_isolation msgHi mixedListeners oneConnListener true
  refine ⟨?_, ?_, ?_⟩
  · rw [h1]; rfl
  · rw [h2]; rfl
  · rw [h3 (by decide)]; rfl

/-- Correlator lemma: once both handlers are removed and the timer is
cleared, no further event changes the request. -/
theorem requestStep_dead (req : HistoryRequest) (h1 : req.historyHandlerOn = false)
    (h2 : req.errorHandlerOn = false) (h3 : req.timerOn = false) (ev : ReqEvent) :
    requestStep req ev = req := by
  cases ev <;> simp [requestStep, h1, h2, h3]

/-- Correlator lemma: a whole event sequence leaves a dead request alone. -/
theorem foldl_requestStep_dead (req : HistoryRequest) (h1 : req.historyHandlerOn = false)
    (h2 : req.errorHandlerOn = false) (h3 : req.timerOn = false) (evs : List ReqEvent) :
    evs.foldl requestStep req = req := by
  induction evs with
  | nil => rfl
  | cons e rest ih =>
    rw [List.foldl_cons, requestStep_dead req h1 h2 h3 e]
    exact ih

/-- Correlator lemma: chat_history events for other correlation keys leave a
fresh pending request untouched. -/
theorem foldl_nonSettling (uid : Int) (evs : List ReqEvent)
    (h : ∀ e ∈ evs, nonSettling uid e = true) :
    evs.foldl requestStep (initRequest uid) = initRequest uid := by
  induction evs with
  | nil => rfl
  | cons e rest ih =>
    have he := h e (List.mem_cons_self e rest)
    have hrest : ∀ x ∈ rest, nonSettling uid x = true :=
      fun x hx => h x (List.mem_cons_of_mem e hx)
    rw [List.foldl_cons]
    have hstep : requestStep (initRequest uid) e = initRequest uid := by
      cases e with
      | chatHistory u msgs =>
        have hu : ¬(u = uid) := by
          simp [nonSettling] at he
          exact he
        simp [requestStep, initRequest, hu]
      | errorEvent em => simp [nonSettling] at he
      | timerFire => simp [nonSettling] at he
    rw [hstep]
    exact ih hrest

/-- C6: a getChatHistory request that sees only non-matching chat_history
events before its timer fires is rejected with the timeout error exactly
once, both handler registrations are removed at the timeout, and any events
arriving afterwards, matching or not, cause no second settlement. -/
theorem getChatHistory_timeout_settles_once (uid : Int) (pre post : List ReqEvent)
    (hpre : ∀ e ∈ pre, nonSettling uid e = true) :
    (pre ++ ReqEvent.timerFire :: post).foldl requestStep (initRequest uid) =
      timedOutRequest uid := by
  rw [List.foldl_append, foldl_nonSettling uid pre hpre, List.foldl_cons]
  have hstep : requestStep (initRequest uid) ReqEvent.timerFire = timedOutRequest uid := by
    simp [requestStep, initRequest, timedOutRequest]
  rw [hstep]
  exact foldl_requestStep_dead (timedOutRequest uid) rfl rfl rfl post

/-- C6 witness: a concrete run with a non-matching event before the timeout
and a matching event plus an error event after it. -/
theorem getChatHistory_timeout_witness :
    ([ReqEvent.chatHistory 9 none] ++ ReqEvent.timerFire ::
        [ReqEvent.chatHistory 1 (some []), ReqEvent.errorEvent none]).foldl requestStep
      (initRequest 1) = timedOutRequest 1 :=
  getChatHistory_timeout_settles_once 1 [ReqEvent.chatHistory 9 none]
    [ReqEvent.chatHistory 1 (some []), ReqEvent.errorEvent none] (by decide)

/-- C7: while its handler is registered, a pending request ignores a
chat_history event whose other_user_id differs from its correlation key,
keeping every registration, and an event carrying its key settles it by
resolving with the message list of the event. -/
theorem chatHistory_correlation (req : HistoryRequest) (h : req.historyHandlerOn = true)
    (uid : Int) (msgs : Option (List Msg)) :
    (uid ≠ req.otherUserId → requestStep req (.chatHistory uid msgs) = req) ∧
    requestStep req (.chatHistory req.otherUserId msgs) =
      { req with timerOn := false, historyHandlerOn := false, errorHandlerOn := false,
                 settlements := req.settlements ++ [.resolved (msgs.getD [])] } := by
  constructor
  · intro hne
    simp [requestStep, h, hne]
  · simp [requestStep, h]

/-- C7 witness: a fresh request for key 1 ignores an event for key 2 and is
resolved by an event for key 1 with the message list of that event. -/
theorem chatHistory_correlation_witness :
    requestStep (initRequest 1) (.chatHistory 2 (some [])) = initRequest 1 ∧
    requestStep (initRequest 1) (.chatHistory 1 (some [msgHi])) =
      { otherUserId := 1, historyHandlerOn := false, errorHandlerOn := false,
        timerOn := false, settlements := [.resolved [msgHi]] } := by
  obtain ⟨ha, _⟩ := chatHistory_correlation (initRequest 1) rfl 2 (some [])
  obtain ⟨_, hb⟩ := chatHistory_correlation (initRequest 1) rfl 2 (some [msgHi])
  constructor
  · exact ha (by decide)
  · exact hb
